import Mathlib

/-!
Verification of the Mapping Resolution and CLO Synthesis Engine of the
CLOgenerator repository. The definitions below are a shallow embedding of
the JavaScript sources:

* `src/static/js/advanced_clo_generator.js` (the main browser engine:
  `loadMapping`, the `peoSelect` change handler, `renderAssessmentSuggestions`,
  `generateCLO`, `saveGenerated`, the bulk-generate handler, `arrayToCSV`);
* `src/unnamed/part_000` (the v2 auto-linker: `showMapping` and the
  `al_level` change listener);
* `src/static/js/advanced_clo_generator_v3.js` (the v3 cascade: the
  `iegSel` change handler and the statement resolution used by the
  `peoSel` and `ploSel` handlers).

JavaScript objects whose keys carry data are embedded as association lists
(`List (String × _)`), preserving key order; a key that may be missing
(`undefined` in JS, which is falsy, as is `null`) is embedded as `Option`.
JavaScript string truthiness (the empty string is falsy) is modelled
explicitly wherever the source uses `||` or a conditional on a string.
-/

/-- A JSON-like value, used for the statement tables, whose shape in the
source data is either level-scoped (an object of objects) or flat (an
object of strings). -/
inductive JVal where
  | str : String → JVal
  | obj : List (String × JVal) → JVal

/-- JS property access `o?.[k]` on an embedded value: only objects yield
entries; accessing a property of a string with an id-like key yields
`undefined` (here `none`). -/
def jGetKey : Option JVal → String → Option JVal
  | some (JVal.obj kvs), k => List.lookup k kvs
  | _, _ => none

/-- JS truthiness of an embedded value: `undefined` and the empty string
are falsy; every object is truthy. -/
def jvTruthy : Option JVal → Bool
  | some (JVal.str s) => s ≠ ""
  | some (JVal.obj _) => true
  | none => false

/-- JS `a || b` on embedded values. -/
def jvOr (a b : Option JVal) : Option JVal :=
  if jvTruthy a then a else b

/-- Stringification performed when a value is written into a template
literal or `textContent`. -/
def jvText : Option JVal → String
  | some (JVal.str s) => s
  | some (JVal.obj _) => "[object Object]"
  | none => "undefined"

/-- JS `x || d` where `x` is a possibly-absent string (string truthiness:
the empty string falls through to the default). -/
def jsOrStr (x : Option String) (d : String) : String :=
  match x with
  | some s => if s = "" then d else s
  | none => d

/-- JS `a || b` where both sides are possibly-absent object/array values.
Objects and arrays are always truthy, even when empty, so the left side
wins exactly when it is present (`none` models both `undefined` and
`null`, the only falsy cases here). -/
def jsOrObj {α : Type} (a b : Option α) : Option α :=
  match a with
  | some x => some x
  | none => b

/-- Lookup in a possibly-absent association list whose values are arrays:
JS `t?.[k] || []` (an array, even empty, is truthy). -/
def jLookupArr (t : Option (List (String × List String))) (k : String) : List String :=
  match t with
  | some l => (List.lookup k l).getD []
  | none => []

/-- Lookup in a possibly-absent association list of strings: JS `t?.[k]`,
still possibly absent. -/
def jLookupStr (t : Option (List (String × String))) (k : String) : Option String :=
  match t with
  | some l => List.lookup k l
  | none => none

/-!
## The merged mapping document

`loadMapping` in `src/static/js/advanced_clo_generator.js` (lines 239-274)
fetches the base JSON, copies it (`Object.assign({}, json)`), and, when a
`USMMapping` override was saved, executes for each table
`final.T = parsed.T || final.T` (the five statement/annotation tables
additionally defaulting to `{}`); with no saved override it only applies
the `|| {}` defaults. Any of the seven tables may be absent from either
document, hence every field is an `Option`.
-/

/-- The shape shared by the base JSON document, the persisted override
document, and the merged result. -/
structure Mapping where
  IEGtoPEO : Option (List (String × List String))
  PEOtoPLO : Option (List (String × List String))
  PLOstatements : Option JVal
  PEOstatements : Option JVal
  PLOtoVBE : Option (List (String × String))
  PLOIndicators : Option (List (String × String))
  SCmapping : Option (List (String × String))

/-- The merge step of `loadMapping` (lines 246-270): `saved = none` models
the absence of a `USMMapping` entry in localStorage; `saved = some parsed`
models a successfully parsed override. -/
def loadMerge (base : Mapping) (saved : Option Mapping) : Mapping :=
  match saved with
  | some parsed =>
    { IEGtoPEO := jsOrObj parsed.IEGtoPEO base.IEGtoPEO
      PEOtoPLO := jsOrObj parsed.PEOtoPLO base.PEOtoPLO
      PLOstatements := jsOrObj parsed.PLOstatements (jsOrObj base.PLOstatements (some (JVal.obj [])))
      PEOstatements := jsOrObj parsed.PEOstatements (jsOrObj base.PEOstatements (some (JVal.obj [])))
      PLOtoVBE := jsOrObj parsed.PLOtoVBE (jsOrObj base.PLOtoVBE (some []))
      PLOIndicators := jsOrObj parsed.PLOIndicators (jsOrObj base.PLOIndicators (some []))
      SCmapping := jsOrObj parsed.SCmapping (jsOrObj base.SCmapping (some [])) }
  | none =>
    { base with
      PLOstatements := jsOrObj base.PLOstatements (some (JVal.obj []))
      PEOstatements := jsOrObj base.PEOstatements (some (JVal.obj []))
      PLOtoVBE := jsOrObj base.PLOtoVBE (some [])
      PLOIndicators := jsOrObj base.PLOIndicators (some [])
      SCmapping := jsOrObj base.SCmapping (some []) }

/-- Concrete base document used in counterexamples. -/
def cBase : Mapping :=
  { IEGtoPEO := some [("IEG1", ["PEO1"])]
    PEOtoPLO := some [("PEO1", ["PLO1", "PLO2"])]
    PLOstatements := some (JVal.obj [])
    PEOstatements := some (JVal.obj [])
    PLOtoVBE := some []
    PLOIndicators := some []
    SCmapping := some [] }

/-- Concrete override document whose `IEGtoPEO` table is present but
empty; all other tables are absent. -/
def cOvrEmptyTable : Mapping :=
  { IEGtoPEO := some []
    PEOtoPLO := none
    PLOstatements := none
    PEOstatements := none
    PLOtoVBE := none
    PLOIndicators := none
    SCmapping := none }

/-- C1 counterexample: the override document carries a present but empty
`IEGtoPEO` table. The claim says the merged table then equals the base
table (the override table is present but not non-empty); the code keeps
the empty override table, because an empty object is truthy in JS, so
`parsed.IEGtoPEO || final.IEGtoPEO` selects it. -/
theorem c1_counterexample :
    cOvrEmptyTable.IEGtoPEO = some []
    ∧ cBase.IEGtoPEO = some [("IEG1", ["PEO1"])]
    ∧ (loadMerge cBase (some cOvrEmptyTable)).IEGtoPEO = some []
    ∧ (loadMerge cBase (some cOvrEmptyTable)).IEGtoPEO ≠ cBase.IEGtoPEO := by
  refine ⟨rfl, rfl, rfl, ?_⟩
  intro h
  simp [loadMerge, jsOrObj, cBase, cOvrEmptyTable] at h

/-- C1 (amended): the merged document assigns to each table the override
table whenever that table is present in the override document (even when
it is empty — presence, not non-emptiness, decides), and the base table
otherwise (the five statement/annotation tables defaulting to the empty
table when absent from both documents); the replacement is wholesale per
table, never a key-by-key deep merge. -/
theorem c1_merge_table_replacement (base ovr : Mapping) :
    (∀ t, ovr.IEGtoPEO = some t → (loadMerge base (some ovr)).IEGtoPEO = some t)
    ∧ (ovr.IEGtoPEO = none → (loadMerge base (some ovr)).IEGtoPEO = base.IEGtoPEO)
    ∧ (∀ t, ovr.PEOtoPLO = some t → (loadMerge base (some ovr)).PEOtoPLO = some t)
    ∧ (ovr.PEOtoPLO = none → (loadMerge base (some ovr)).PEOtoPLO = base.PEOtoPLO)
    ∧ (∀ v, ovr.PLOstatements = some v → (loadMerge base (some ovr)).PLOstatements = some v)
    ∧ (ovr.PLOstatements = none →
        (loadMerge base (some ovr)).PLOstatements = jsOrObj base.PLOstatements (some (JVal.obj [])))
    ∧ (∀ v, ovr.PEOstatements = some v → (loadMerge base (some ovr)).PEOstatements = some v)
    ∧ (ovr.PEOstatements = none →
        (loadMerge base (some ovr)).PEOstatements = jsOrObj base.PEOstatements (some (JVal.obj [])))
    ∧ (∀ t, ovr.PLOtoVBE = some t → (loadMerge base (some ovr)).PLOtoVBE = some t)
    ∧ (ovr.PLOtoVBE = none →
        (loadMerge base (some ovr)).PLOtoVBE = jsOrObj base.PLOtoVBE (some []))
    ∧ (∀ t, ovr.PLOIndicators = some t → (loadMerge base (some ovr)).PLOIndicators = some t)
    ∧ (ovr.PLOIndicators = none →
        (loadMerge base (some ovr)).PLOIndicators = jsOrObj base.PLOIndicators (some []))
    ∧ (∀ t, ovr.SCmapping = some t → (loadMerge base (some ovr)).SCmapping = some t)
    ∧ (ovr.SCmapping = none →
        (loadMerge base (some ovr)).SCmapping = jsOrObj base.SCmapping (some [])) := by
  refine ⟨?_, ?_, ?_, ?_, ?_, ?_, ?_, ?_, ?_, ?_, ?_, ?_, ?_, ?_⟩ <;>
    first
      | (intro t h; simp [loadMerge, jsOrObj, h])
      | (intro h; simp [loadMerge, jsOrObj, h])

/-- Witness for `c1_merge_table_replacement` at concrete documents. -/
theorem c1_merge_table_replacement_witness :
    (loadMerge cBase (some cOvrEmptyTable)).IEGtoPEO = some []
    ∧ (loadMerge cBase (some cOvrEmptyTable)).PEOtoPLO = cBase.PEOtoPLO := by
  exact ⟨(c1_merge_table_replacement cBase cOvrEmptyTable).1 [] rfl,
    (c1_merge_table_replacement cBase cOvrEmptyTable).2.2.2.1 rfl⟩

/-- C6: with no saved override the merge reproduces the base document (the
base, as a loaded mapping document, has all tables present — per the input
contract absent tables default to the empty map); and with an override, the
merged document carries the override tables verbatim for every table key
present in the override. -/
theorem c6_merge_idempotent (base ovr : Mapping)
    (h1 : base.PLOstatements.isSome) (h2 : base.PEOstatements.isSome)
    (h3 : base.PLOtoVBE.isSome) (h4 : base.PLOIndicators.isSome)
    (h5 : base.SCmapping.isSome) :
    loadMerge base none = base
    ∧ (∀ t, ovr.IEGtoPEO = some t → (loadMerge base (some ovr)).IEGtoPEO = some t)
    ∧ (∀ t, ovr.PEOtoPLO = some t → (loadMerge base (some ovr)).PEOtoPLO = some t)
    ∧ (∀ v, ovr.PLOstatements = some v → (loadMerge base (some ovr)).PLOstatements = some v)
    ∧ (∀ v, ovr.PEOstatements = some v → (loadMerge base (some ovr)).PEOstatements = some v)
    ∧ (∀ t, ovr.PLOtoVBE = some t → (loadMerge base (some ovr)).PLOtoVBE = some t)
    ∧ (∀ t, ovr.PLOIndicators = some t → (loadMerge base (some ovr)).PLOIndicators = some t)
    ∧ (∀ t, ovr.SCmapping = some t → (loadMerge base (some ovr)).SCmapping = some t) := by
  constructor
  · obtain ⟨f1, f2, f3, f4, f5, f6, f7⟩ := base
    simp only [Option.isSome_iff_exists] at h1 h2 h3 h4 h5
    obtain ⟨v3, rfl⟩ := h1
    obtain ⟨v4, rfl⟩ := h2
    obtain ⟨v5, rfl⟩ := h3
    obtain ⟨v6, rfl⟩ := h4
    obtain ⟨v7, rfl⟩ := h5
    rfl
  · refine ⟨?_, ?_, ?_, ?_, ?_, ?_, ?_⟩ <;> (intro t h; simp [loadMerge, jsOrObj, h])

/-- Witness for `c6_merge_idempotent` at concrete documents. -/
theorem c6_merge_idempotent_witness :
    loadMerge cBase none = cBase
    ∧ (loadMerge cBase (some cOvrEmptyTable)).IEGtoPEO = some [] := by
  have h := c6_merge_idempotent cBase cOvrEmptyTable rfl rfl rfl rfl rfl
  exact ⟨h.1, h.2.1 [] rfl⟩

/-!
## Application state of the main engine

Module-level state of `src/static/js/advanced_clo_generator.js` together
with the input controls the handlers read (`verbInput.value`,
`bloomSelect.value`, `levelSelect.value`, `cloArea.value`,
`courseInput.value`).
-/

/-- One saved entry of the session list (`saveGenerated`, lines 376-385). -/
structure GenItem where
  course : String
  peo : String
  plos : List String
  sc : List String
  vbe : List String
  indicators : List String
  clo : String
  savedAt : String
deriving DecidableEq

structure AppState where
  selectedPEO : String
  selectedPLOs : List String
  selectedIEGs : List String
  verbInput : String
  bloomSelect : String
  levelSelect : String
  cloArea : String
  courseInput : String
  generatedList : List GenItem
deriving DecidableEq

/-- `getSC` (lines 296-298): `(mapping && mapping.SCmapping && mapping.SCmapping[plo]) ? mapping.SCmapping[plo] : ""`. -/
def getSC (m : Mapping) (plo : String) : String :=
  match jLookupStr m.SCmapping plo with
  | some s => if s = "" then "" else s
  | none => ""

/-- `getVBE` (lines 299-301). -/
def getVBE (m : Mapping) (plo : String) : String :=
  match jLookupStr m.PLOtoVBE plo with
  | some s => if s = "" then "" else s
  | none => ""

/-- `getIndicator` (lines 302-304). -/
def getIndicator (m : Mapping) (plo : String) : String :=
  match jLookupStr m.PLOIndicators plo with
  | some s => if s = "" then "" else s
  | none => ""

/-- The static `ASSESSMENT_SUGGESTIONS` table (lines 224-236). -/
def ASSESSMENT_SUGGESTIONS : List (String × List String) :=
  [("PLO1", ["Written exam", "Open-book exam", "Quiz"]),
   ("PLO2", ["Critical review assignment", "Journal critique"]),
   ("PLO3", ["Practical test", "Lab report", "OSCE"]),
   ("PLO4", ["Peer-assessment", "Group project"]),
   ("PLO5", ["Presentation", "Oral exam", "Poster"]),
   ("PLO6", ["Digital portfolio", "Data analysis assignment"]),
   ("PLO7", ["Problem set", "Calculation test"]),
   ("PLO8", ["Leadership project", "Team-based assignment"]),
   ("PLO9", ["Reflective journal", "Learning log"]),
   ("PLO10", ["Business plan", "Entrepreneurship pitch"]),
   ("PLO11", ["Professional conduct assessment", "Case study"])]

/-- `Array.from(new Set(l))`: a JS `Set` iterates in insertion order, so
this keeps the first occurrence of every element. Modelled as the
insertion-order fold a `Set` performs. -/
def jsSetFrom (l : List String) : List String :=
  l.foldl (fun acc s => if acc.contains s then acc else acc ++ [s]) []

/-- The suggestion computation of `renderAssessmentSuggestions`
(lines 333-345): flat-map the static table over the selected PLOs
(`ASSESSMENT_SUGGESTIONS[p] || []`), deduplicate via `new Set`, and
`slice(0, 6)`. -/
def renderAssessmentSuggestions (st : AppState) : List String :=
  (jsSetFrom (st.selectedPLOs.flatMap
    (fun p => (List.lookup p ASSESSMENT_SUGGESTIONS).getD []))).take 6

/-- The `peoSelect` change handler (lines 447-456): stores the chosen PEO,
derives the selected PLOs from `PEOtoPLO` (a copy, in stored order, or `[]`
when absent) and the selected IEGs by reversing `IEGtoPEO`. The derived
PLO list is at once the candidate set and the selected set: the engine has
no per-outcome deselection control, so every candidate is selected. -/
def onPeoChange (m : Mapping) (st : AppState) (v : String) : AppState :=
  -- `selectedPEO = e.target.value || ""` is the identity on strings
  let p := v
  { st with
    selectedPEO := p
    selectedPLOs :=
      match m.PEOtoPLO with
      | some tbl => match List.lookup p tbl with
        | some os => os
        | none => []
      | none => []
    selectedIEGs :=
      match m.IEGtoPEO with
      | some tbl => (tbl.map Prod.fst).filter
          (fun ieg => ((List.lookup ieg tbl).getD []).contains p)
      | none => [] }

/-- C2: selecting an objective id present in `PEOtoPLO` makes the outcome
set exactly the stored table entry, in stored order (all of it selected);
an absent objective id yields the empty outcome set. -/
theorem c2_peo_selects_outcomes (m : Mapping) (st : AppState) (p : String) :
    (∀ tbl os, m.PEOtoPLO = some tbl → List.lookup p tbl = some os →
      (onPeoChange m st p).selectedPLOs = os)
    ∧ (∀ tbl, m.PEOtoPLO = some tbl → List.lookup p tbl = none →
      (onPeoChange m st p).selectedPLOs = [])
    ∧ (m.PEOtoPLO = none → (onPeoChange m st p).selectedPLOs = []) := by
  refine ⟨?_, ?_, ?_⟩
  · intro tbl os htbl hos
    simp [onPeoChange, htbl, hos]
  · intro tbl htbl hos
    simp [onPeoChange, htbl, hos]
  · intro htbl
    simp [onPeoChange, htbl]

/-- Initial empty state used by concrete witnesses. -/
def cSt0 : AppState :=
  { selectedPEO := "", selectedPLOs := [], selectedIEGs := []
    verbInput := "", bloomSelect := "Apply", levelSelect := "Degree"
    cloArea := "", courseInput := "[Course Name]", generatedList := [] }

/-- Witness for `c2_peo_selects_outcomes`: selecting `PEO1` in the concrete
base document yields exactly its stored outcome list; selecting an unknown
id yields the empty list. -/
theorem c2_peo_selects_outcomes_witness :
    (onPeoChange cBase cSt0 "PEO1").selectedPLOs = ["PLO1", "PLO2"]
    ∧ (onPeoChange cBase cSt0 "PEO9").selectedPLOs = [] := by
  exact ⟨(c2_peo_selects_outcomes cBase cSt0 "PEO1").1 _ _ rfl rfl,
    (c2_peo_selects_outcomes cBase cSt0 "PEO9").2.1 _ rfl rfl⟩

/-- First-seen deduplication, written independently of the `Set`-based
fold of the source, for comparison. -/
def dedupFirstSeen : List String → List String
  | [] => []
  | x :: xs => x :: dedupFirstSeen (xs.filter (fun y => y ≠ x))
termination_by l => l.length
decreasing_by
  simp only [List.length_cons]
  exact Nat.lt_succ_of_le (List.length_filter_le _ _)

theorem jsSetFrom_go (l : List String) :
    ∀ acc : List String,
      l.foldl (fun acc s => if acc.contains s then acc else acc ++ [s]) acc
        = acc ++ dedupFirstSeen (l.filter (fun y => !acc.contains y)) := by
  induction l with
  | nil => intro acc; simp [dedupFirstSeen]
  | cons x xs ih =>
    intro acc
    rw [List.foldl_cons, List.filter_cons]
    by_cases hx : acc.contains x = true
    · rw [if_pos hx, if_neg (by simpa using hx : ¬((!acc.contains x) = true)), ih acc]
    · rw [if_neg hx, if_pos (by simpa using hx), ih (acc ++ [x])]
      have hfil : xs.filter (fun y => !(acc ++ [x]).contains y)
          = (xs.filter (fun y => !acc.contains y)).filter (fun y => y ≠ x) := by
        rw [List.filter_filter]
        apply List.filter_congr
        intro y _
        by_cases h1 : y = x
        · subst h1; simp [List.mem_append]
        · by_cases h2 : y ∈ acc <;> simp [List.mem_append, h1, h2]
      rw [dedupFirstSeen, ← hfil, List.append_assoc, List.singleton_append]

/-- `Array.from(new Set(l))` is exactly first-seen deduplication. -/
theorem jsSetFrom_eq_dedupFirstSeen (l : List String) :
    jsSetFrom l = dedupFirstSeen l := by
  have h := jsSetFrom_go l []
  simpa [jsSetFrom] using h

/-- C9: for every selected outcome set, the assessment-method suggestions
are the first-seen-order deduplicated union of the static lookup over the
selected outcomes, truncated to the first 6 entries. -/
theorem c9_assessment_suggestions (st : AppState) :
    renderAssessmentSuggestions st
      = (dedupFirstSeen (st.selectedPLOs.flatMap
          (fun p => (List.lookup p ASSESSMENT_SUGGESTIONS).getD []))).take 6 := by
  simp [renderAssessmentSuggestions, jsSetFrom_eq_dedupFirstSeen]

/-!
## Synthesis, saving and bulk generation

`generateCLO` (lines 348-370) guards on an empty `selectedPLOs` (alerting
and returning the empty string without touching any state). On the
non-empty path it computes `verb` and `ploWithSC` (both pure), and then at
lines 358-359 evaluates `mapping.PLOstatements?.[level]?.[plo]` inside the
`map` callback. The local `const level` is only declared at line 364, after
that use; under strict mode the access falls in the temporal dead zone and
raises a `ReferenceError`, so the assignments at lines 364-369 (including
`cloArea.value = text`) are never reached. The embedding returns
`Except.error` for that path; alerts raised are returned alongside the
state, which `generateCLO` never modifies on any path.
-/

/-- JS `String.prototype.trim`, modelled character-wise (drop leading and
trailing whitespace). -/
def jsTrim (s : String) : String :=
  String.mk (((s.data.dropWhile Char.isWhitespace).reverse.dropWhile
    Char.isWhitespace).reverse)

/-- JS `String.prototype.split` against a class of single separator
characters, modelled character-wise; adjacent separators produce empty
segments, exactly as in JS. -/
def jsSplitChars (p : Char → Bool) : List Char → List (List Char)
  | [] => [[]]
  | c :: cs =>
    if p c then [] :: jsSplitChars p cs
    else
      match jsSplitChars p cs with
      | [] => [[c]]
      | h :: t => (c :: h) :: t

/-- `Except.ok` is left identity for bind (the do-notation of the
embedding). -/
theorem exceptBindOk {ε α β : Type} (v : α) (f : α → Except ε β) :
    (do let x ← (Except.ok v : Except ε α); f x) = f v := rfl

def msgNoPEO : String := "Please select a PEO (which auto-populates PLOs)"

def msgNoCLO : String := "No CLO to save. Generate one first."

def msgRefError : String := "ReferenceError: cannot access level before initialization"

/-- `generateCLO(courseLabel)` (lines 348-370). Result: new state (never
actually changed), returned text, raised alert. -/
def generateCLO (m : Mapping) (st : AppState) (courseLabel : String) :
    Except String (AppState × String × Option String) :=
  if st.selectedPLOs.isEmpty then
    Except.ok (st, "", some msgNoPEO)
  else
    -- verb := verbInput || BLOOM_VERBS[bloom][0] || "demonstrate" and the
    -- ploWithSC join are evaluated first, but the map over selectedPLOs at
    -- lines 358-359 reads the dead-zone `level` and throws; `courseLabel`
    -- and `m` are never consulted after that point.
    Except.error msgRefError

/-- The record built by `saveGenerated` (lines 376-385). -/
def mkGenItem (m : Mapping) (st : AppState) (courseLabel txt now : String) : GenItem :=
  { course := jsOrStr (some courseLabel) (jsOrStr (some st.courseInput) "[Course Name]")
    peo := st.selectedPEO
    plos := st.selectedPLOs
    sc := st.selectedPLOs.map (getSC m)
    vbe := st.selectedPLOs.map (getVBE m)
    indicators := st.selectedPLOs.map (getIndicator m)
    clo := txt
    savedAt := now }

/-- `saveGenerated(courseLabel)` (lines 373-389): saves the trimmed content
of the generated-CLO text area, when non-empty, as a new session record and
clears the area; alerts otherwise. `now` stands for
`new Date().toISOString()`. -/
def saveGenerated (m : Mapping) (st : AppState) (courseLabel now : String) :
    AppState × Option String :=
  let txt := jsTrim st.cloArea
  if txt = "" then
    (st, some msgNoCLO)
  else
    ({ st with
        generatedList := st.generatedList ++ [mkGenItem m st courseLabel txt now]
        cloArea := "" }, none)

/-- The bulk input split (line 471):
`bulkArea.value.split(/\n|,|;/).map(s => s.trim()).filter(Boolean)`. -/
def splitBulk (raw : String) : List String :=
  (((jsSplitChars (fun c => c = '\n' ∨ c = ',' ∨ c = ';') raw.data).map
    (fun cs => jsTrim (String.mk cs))).filter (fun s => s ≠ ""))

/-- The loop body of the bulk handler (lines 473-476): for each course
label, `generateCLO(r)` then `saveGenerated(r)`; an uncaught exception from
`generateCLO` aborts the loop. Alerts are collected in order. -/
def bulkLoop (m : Mapping) (now : String) :
    AppState → List String → List String → Except String (AppState × List String)
  | st, alerts, [] => Except.ok (st, alerts)
  | st, alerts, r :: rs => do
    let (st1, _t, a1) ← generateCLO m st r
    let (st2, a2) := saveGenerated m st1 r now
    bulkLoop m now st2 (alerts ++ a1.toList ++ a2.toList) rs

/-- The `bulkBtn` click handler (lines 470-477). -/
def bulkGenerate (m : Mapping) (st : AppState) (raw now : String) :
    Except String (AppState × List String) :=
  let rows := splitBulk raw
  if rows.isEmpty then
    Except.ok (st, ["No courses entered"])
  else
    bulkLoop m now st [] rows

/-- With an empty outcome set and an empty generated-text area, the bulk
loop only accumulates alerts and leaves the state untouched. -/
theorem bulkLoop_no_selection (m : Mapping) (now : String) (rows : List String) :
    ∀ st alerts, st.selectedPLOs = [] → jsTrim st.cloArea = "" →
      bulkLoop m now st alerts rows
        = Except.ok (st, alerts ++ rows.flatMap (fun _ => [msgNoPEO, msgNoCLO])) := by
  induction rows with
  | nil => intro st alerts _ _; simp [bulkLoop]
  | cons r rs ih =>
    intro st alerts hplo harea
    have h1 : generateCLO m st r = Except.ok (st, "", some msgNoPEO) := by
      simp [generateCLO, hplo]
    have h2 : saveGenerated m st r now = (st, some msgNoCLO) := by
      simp [saveGenerated, harea]
    rw [bulkLoop, h1, exceptBindOk]
    simp only [h2]
    rw [ih st _ hplo harea]
    simp

/-- C3 counterexample: in bulk mode, with an empty outcome set but residual
text still in the generated-CLO area, the save step of the first label
appends a record — the record list grows although synthesis was invoked
with zero outcomes. -/
theorem c3_counterexample :
    cSt0.selectedPLOs = []
    ∧ (bulkGenerate cBase { cSt0 with cloArea := "stale text" } "CS101" "2026-01-01")
        = Except.ok ({ cSt0 with
            generatedList := [{ course := "CS101", peo := "", plos := [], sc := []
                                vbe := [], indicators := [], clo := "stale text"
                                savedAt := "2026-01-01" }] }, [msgNoPEO]) :=
  ⟨rfl, rfl⟩

/-- C3 (amended): invoking synthesis with an empty outcome set raises the
missing-selection alert, returns no statement, and leaves the state (and
the session record list) unchanged; this is unconditional in single mode.
In bulk mode it also holds whenever the generated-text area is empty; but
when residual text is present the bulk save step still appends one record
carrying that residual text and clears the area. -/
theorem c3_empty_selection (m : Mapping) (st : AppState) (label raw now : String)
    (hplo : st.selectedPLOs = []) :
    generateCLO m st label = Except.ok (st, "", some msgNoPEO)
    ∧ (jsTrim st.cloArea = "" →
        Except.map Prod.fst (bulkGenerate m st raw now) = Except.ok st)
    ∧ (∀ r rs, splitBulk raw = r :: rs → jsTrim st.cloArea ≠ "" →
        bulkGenerate m st raw now
          = Except.ok ({ st with
              generatedList :=
                st.generatedList ++ [mkGenItem m st r (jsTrim st.cloArea) now]
              cloArea := "" },
              [msgNoPEO] ++ rs.flatMap (fun _ => [msgNoPEO, msgNoCLO]))) := by
  refine ⟨?_, ?_, ?_⟩
  · simp [generateCLO, hplo]
  · intro harea
    unfold bulkGenerate
    by_cases hrows : (splitBulk raw).isEmpty
    · simp [hrows, Except.map]
    · rw [if_neg hrows, bulkLoop_no_selection m now _ st [] hplo harea]
      simp [Except.map]
  · intro r rs hsplit harea
    have h1 : generateCLO m st r = Except.ok (st, "", some msgNoPEO) := by
      simp [generateCLO, hplo]
    have h2 : saveGenerated m st r now
        = ({ st with
              generatedList :=
                st.generatedList ++ [mkGenItem m st r (jsTrim st.cloArea) now]
              cloArea := "" }, none) := by
      simp [saveGenerated, harea]
    unfold bulkGenerate
    rw [hsplit, if_neg (by simp)]
    rw [bulkLoop, h1, exceptBindOk]
    simp only [h2]
    rw [bulkLoop_no_selection m now rs _ _ (by simp [hplo]) (by rfl)]
    simp

/-- Witness for `c3_empty_selection` at concrete inputs. -/
theorem c3_empty_selection_witness :
    generateCLO cBase cSt0 "CS101" = Except.ok (cSt0, "", some msgNoPEO)
    ∧ Except.map Prod.fst (bulkGenerate cBase cSt0 "CS101" "2026-01-01")
        = Except.ok cSt0 := by
  exact ⟨(c3_empty_selection cBase cSt0 "CS101" "CS101" "2026-01-01" rfl).1,
    (c3_empty_selection cBase cSt0 "CS101" "CS101" "2026-01-01" rfl).2.1 rfl⟩

/-- Concrete state with a non-empty outcome selection. -/
def cStSel : AppState :=
  { cSt0 with selectedPEO := "PEO1", selectedPLOs := ["PLO1", "PLO2"]
              selectedIEGs := ["IEG1"] }

/-- C4 counterexample: with the precondition satisfied (two outcomes
selected), `generateCLO` does not produce any statement at all — it raises
a `ReferenceError`, because line 359 reads the local `level` before its
`const` declaration at line 364 — so no output containing the six template
clauses exists. -/
theorem c4_counterexample :
    cStSel.selectedPLOs ≠ []
    ∧ generateCLO cBase cStSel "CS101" = Except.error msgRefError
    ∧ ∀ out, generateCLO cBase cStSel "CS101" ≠ Except.ok out := by
  refine ⟨by decide, rfl, ?_⟩
  intro out h
  simp [generateCLO, cStSel, cSt0] at h

/-- C4 (amended): for every selection with a non-empty outcome set,
`generateCLO` raises a `ReferenceError` (the temporal-dead-zone read of
`level` at line 359) and produces no statement and no state change. -/
theorem c4_nonempty_selection_throws (m : Mapping) (st : AppState) (label : String)
    (h : st.selectedPLOs ≠ []) :
    generateCLO m st label = Except.error msgRefError := by
  simp [generateCLO, h]

/-- Witness for `c4_nonempty_selection_throws` at a concrete input. -/
theorem c4_nonempty_selection_throws_witness :
    generateCLO cBase cStSel "CS101" = Except.error msgRefError :=
  c4_nonempty_selection_throws cBase cStSel "CS101" (by decide)

/-!
## The v2 auto-linker (`src/unnamed/part_000`)

`showMapping(peo, level)` (lines 144-183) renders a preview card from the
merged document. The semantically meaningful content of the rendered HTML
is embedded as a `Preview` record: the heading ids, the resolved PEO
statement, the mapped IEG ids, and one row per mapped PLO with its
level-scoped statement, SC, VBE and indicator texts.
-/

/-- One rendered PLO row of the v2 preview. -/
structure PloRow where
  id : String
  stmt : String
  sc : String
  vbe : String
  indicator : String

/-- The rendered v2 preview card. -/
structure Preview where
  peo : String
  level : String
  peoStatement : String
  iegs : List String
  ploRows : List PloRow

/-- `showMapping` (lines 144-183): `plos = MAP.PEOtoPLO?.[peo] || []`;
`peoStatement = MAP.PEOstatements?.[level]?.[peo] || "(no PEO statement)"`;
`iegList = Object.keys(MAP.IEGtoPEO || {}).filter(ieg => MAP.IEGtoPEO[ieg].includes(peo))`;
per PLO: statement `MAP.PLOstatements?.[level]?.[p] || "(no PLO statement)"`
and badges `MAP.SCmapping?.[p] || "-"`, `MAP.PLOtoVBE?.[p] || "-"`,
`MAP.PLOIndicators?.[p] || "-"`. -/
def showMapping (M : Mapping) (peo level : String) : Preview :=
  { peo := peo
    level := level
    peoStatement :=
      jvText (jvOr (jGetKey (jGetKey M.PEOstatements level) peo)
        (some (JVal.str "(no PEO statement)")))
    iegs :=
      match M.IEGtoPEO with
      | some tbl => (tbl.map Prod.fst).filter
          (fun ieg => ((List.lookup ieg tbl).getD []).contains peo)
      | none => []
    ploRows :=
      (jLookupArr M.PEOtoPLO peo).map (fun p =>
        { id := p
          stmt := jvText (jvOr (jGetKey (jGetKey M.PLOstatements level) p)
            (some (JVal.str "(no PLO statement)")))
          sc := jsOrStr (jLookupStr M.SCmapping p) "-"
          vbe := jsOrStr (jLookupStr M.PLOtoVBE p) "-"
          indicator := jsOrStr (jLookupStr M.PLOIndicators p) "-" }) }

/-- The v2 selection state: the two dropdown values and the rendered
preview. -/
structure V2State where
  peoVal : String
  levelVal : String
  preview : Option Preview

/-- The `al_level` change listener (lines 135-139): it reads the current
PEO and the newly chosen level and re-renders the preview when a PEO is
selected; it writes to no select element. -/
def onLevelChangeV2 (M : Mapping) (st : V2State) (newLevel : String) : V2State :=
  let st1 : V2State := { st with levelVal := newLevel }
  if st1.peoVal ≠ "" then
    { st1 with preview := some (showMapping M st1.peoVal newLevel) }
  else
    st1

/-- C7: changing the hierarchy level alone never changes the selected
objective id, and the id content of the rendered preview (objective id,
mapped IEG ids, mapped PLO ids) is the same at every level — only the
level-scoped statement texts can differ between levels. -/
theorem c7_level_change_preserves_ids (M : Mapping) (st : V2State)
    (lvl lvl2 : String) :
    (onLevelChangeV2 M st lvl).peoVal = st.peoVal
    ∧ (∀ p, (showMapping M p lvl).peo = (showMapping M p lvl2).peo
        ∧ (showMapping M p lvl).iegs = (showMapping M p lvl2).iegs
        ∧ (showMapping M p lvl).ploRows.map PloRow.id
            = (showMapping M p lvl2).ploRows.map PloRow.id) := by
  constructor
  · unfold onLevelChangeV2
    by_cases h : st.peoVal ≠ "" <;> simp [h]
  · intro p
    refine ⟨rfl, rfl, ?_⟩
    simp [showMapping]

/-!
## The v3 cascade (`src/static/js/advanced_clo_generator_v3.js`)

The stable v3 build (lines 224-408) extracts its tables from the loaded
JSON via `pick` (case-insensitive on table names) and wires the
IEG → PEO → PLO cascade. The tables below are the values the `pick` calls
produce (each possibly `undefined`).
-/

structure V3Tables where
  IEG_LIST : Option (List String)
  IEGtoPEO : Option (List (String × List String))
  PEOtoPLO : Option (List (String × List String))
  PLOstatements : Option JVal
  PEOstatements : Option JVal
  IEGstatements : Option (List (String × String))
  PLOIndicators : Option (List (String × String))

/-- The v3 cursor state: the selected values of the cascade dropdowns, the
candidate option lists behind the PEO and PLO dropdowns, the Bloom/verb
dropdown values, and the four statement display fields. -/
structure V3State where
  iegVal : String
  peoVal : String
  ploVal : String
  levelVal : String
  peoOptions : List String
  ploOptions : List String
  bloomVal : String
  verbVal : String
  iegStatementText : String
  peoStatementText : String
  ploStatementText : String
  ploIndicatorText : String

/-- The `iegSel` change handler (lines 314-328): resets the PEO and PLO
dropdowns to their placeholder (clearing both the candidate lists and the
selected values), repopulates the PEO candidates from
`IEGtoPEO?.[ieg] || []`, sets the IEG statement display
(`IEGstatements?.[ieg] || ieg`) and blanks the other displays. It touches
neither the Bloom dropdown nor the verb dropdown. -/
def onIegChangeV3 (T : V3Tables) (st : V3State) (ieg : String) : V3State :=
  { st with
    iegVal := ieg
    peoOptions :=
      match T.IEGtoPEO with
      | some tbl => (List.lookup ieg tbl).getD []
      | none => []
    peoVal := ""
    ploOptions := []
    ploVal := ""
    iegStatementText := jsOrStr (jLookupStr T.IEGstatements ieg) ieg
    peoStatementText := "—"
    ploStatementText := "—"
    ploIndicatorText := "—" }

/-- Concrete v3 tables for counterexamples. -/
def cT3 : V3Tables :=
  { IEG_LIST := none
    IEGtoPEO := some [("IEG1", ["PEO1"])]
    PEOtoPLO := some [("PEO1", ["PLO1", "PLO2"])]
    PLOstatements := none
    PEOstatements := none
    IEGstatements := none
    PLOIndicators := none }

/-- Concrete v3 state with Bloom level and verb already chosen. -/
def cSt3 : V3State :=
  { iegVal := "", peoVal := "PEO9", ploVal := "PLO9", levelVal := "Degree"
    peoOptions := ["PEO9"], ploOptions := ["PLO9"]
    bloomVal := "Apply", verbVal := "design"
    iegStatementText := "", peoStatementText := "", ploStatementText := ""
    ploIndicatorText := "" }

/-- C5 counterexample: selecting the attribute `IEG1` clears the selected
objective and outcome, but the previously selected Bloom level `Apply` and
verb `design` survive untouched — the claim says every downstream field,
Bloom level and verb included, is cleared. -/
theorem c5_counterexample :
    cSt3.bloomVal = "Apply" ∧ cSt3.verbVal = "design"
    ∧ (onIegChangeV3 cT3 cSt3 "IEG1").peoVal = ""
    ∧ (onIegChangeV3 cT3 cSt3 "IEG1").ploVal = ""
    ∧ (onIegChangeV3 cT3 cSt3 "IEG1").bloomVal = "Apply"
    ∧ (onIegChangeV3 cT3 cSt3 "IEG1").verbVal = "design" :=
  ⟨rfl, rfl, rfl, rfl, rfl, rfl⟩

/-- C5 (amended): selecting an attribute id recomputes the objective
candidate set to exactly `AttributeToObjective[a]` (empty when `a` or the
table is absent) and clears the selected objective, the outcome candidate
list and the selected outcome; but the previously selected Bloom level and
verb are left unchanged, not cleared. -/
theorem c5_attribute_cascade (T : V3Tables) (st : V3State) (a : String) :
    (∀ tbl os, T.IEGtoPEO = some tbl → List.lookup a tbl = some os →
      (onIegChangeV3 T st a).peoOptions = os)
    ∧ (∀ tbl, T.IEGtoPEO = some tbl → List.lookup a tbl = none →
      (onIegChangeV3 T st a).peoOptions = [])
    ∧ (T.IEGtoPEO = none → (onIegChangeV3 T st a).peoOptions = [])
    ∧ (onIegChangeV3 T st a).peoVal = ""
    ∧ (onIegChangeV3 T st a).ploVal = ""
    ∧ (onIegChangeV3 T st a).ploOptions = []
    ∧ (onIegChangeV3 T st a).bloomVal = st.bloomVal
    ∧ (onIegChangeV3 T st a).verbVal = st.verbVal := by
  refine ⟨?_, ?_, ?_, rfl, rfl, rfl, rfl, rfl⟩
  · intro tbl os htbl hos
    simp [onIegChangeV3, htbl, hos]
  · intro tbl htbl hos
    simp [onIegChangeV3, htbl, hos]
  · intro htbl
    simp [onIegChangeV3, htbl]

/-- Witness for `c5_attribute_cascade` at concrete inputs. -/
theorem c5_attribute_cascade_witness :
    (onIegChangeV3 cT3 cSt3 "IEG1").peoOptions = ["PEO1"]
    ∧ (onIegChangeV3 cT3 cSt3 "IEG9").peoOptions = [] := by
  exact ⟨(c5_attribute_cascade cT3 cSt3 "IEG1").1 _ _ rfl rfl,
    (c5_attribute_cascade cT3 cSt3 "IEG9").2.1 _ rfl rfl⟩

/-- The PLO statement resolution of the `ploSel` change handler
(lines 357-360): `PLOstatements?.[level]?.[plo] || PLOstatements?.[plo] || "—"`,
written into `ploStatement.textContent`. -/
def ploStatementText (stmts : Option JVal) (level plo : String) : String :=
  jvText (jvOr (jGetKey (jGetKey stmts level) plo)
    (jvOr (jGetKey stmts plo) (some (JVal.str "—"))))

/-- Statement table holding a level-scoped entry for `PLO1` under `Degree`
that is the empty string, alongside a flat entry for `PLO1`. -/
def cStmtsBoth : Option JVal :=
  some (JVal.obj [("Degree", JVal.obj [("PLO1", JVal.str "")]),
                  ("PLO1", JVal.str "flat")])

/-- C8 counterexample: the level-scoped entry `PLOstatements[Degree][PLO1]`
is present (the empty string), yet resolution falls back to the flat entry
— the JS `||` chain skips any falsy value, so the fallback is not taken
only when the entry is absent, but also when it is present and empty. -/
theorem c8_counterexample :
    jGetKey (jGetKey cStmtsBoth "Degree") "PLO1" = some (JVal.str "")
    ∧ ploStatementText cStmtsBoth "Degree" "PLO1" = "flat" :=
  ⟨rfl, rfl⟩

/-- C8 (amended): resolution accepts both input shapes; it tries the
level-scoped entry first and uses it whenever it is a non-empty string
(even when a flat entry also exists), falls back to the flat entry exactly
when the level-scoped entry is absent or falsy (for instance an empty
string), and renders the placeholder when both are absent or falsy. -/
theorem c8_statement_resolution (stmts : Option JVal) (level plo : String) :
    (∀ s, jGetKey (jGetKey stmts level) plo = some (JVal.str s) → s ≠ "" →
      ploStatementText stmts level plo = s)
    ∧ (jvTruthy (jGetKey (jGetKey stmts level) plo) = false →
        ∀ s, jGetKey stmts plo = some (JVal.str s) → s ≠ "" →
          ploStatementText stmts level plo = s)
    ∧ (jvTruthy (jGetKey (jGetKey stmts level) plo) = false →
        jvTruthy (jGetKey stmts plo) = false →
        ploStatementText stmts level plo = "—") := by
  have horT : ∀ a b : Option JVal, jvTruthy a = true → jvOr a b = a := by
    intro a b h; simp [jvOr, h]
  have horF : ∀ a b : Option JVal, jvTruthy a = false → jvOr a b = b := by
    intro a b h; simp [jvOr, h]
  refine ⟨?_, ?_, ?_⟩
  · intro s h hs
    have ht : jvTruthy (jGetKey (jGetKey stmts level) plo) = true := by
      rw [h]; simp [jvTruthy, hs]
    rw [ploStatementText, horT _ _ ht, h, jvText]
  · intro hf s h hs
    have ht : jvTruthy (jGetKey stmts plo) = true := by
      rw [h]; simp [jvTruthy, hs]
    rw [ploStatementText, horF _ _ hf, horT _ _ ht, h, jvText]
  · intro hf1 hf2
    rw [ploStatementText, horF _ _ hf1, horF _ _ hf2, jvText]

/-- Level-scoped-only statement table used by the C8 witness. -/
def cStmtsScoped : Option JVal :=
  some (JVal.obj [("Degree", JVal.obj [("PLO1", JVal.str "Apply knowledge.")])])

/-- Flat-only statement table used by the C8 witness. -/
def cStmtsFlat : Option JVal :=
  some (JVal.obj [("PLO1", JVal.str "flat statement")])

/-- Witness for `c8_statement_resolution`: both input shapes resolve. -/
theorem c8_statement_resolution_witness :
    ploStatementText cStmtsScoped "Degree" "PLO1" = "Apply knowledge."
    ∧ ploStatementText cStmtsFlat "Degree" "PLO1" = "flat statement" :=
  ⟨(c8_statement_resolution cStmtsScoped "Degree" "PLO1").1 _ rfl (by decide),
   (c8_statement_resolution cStmtsFlat "Degree" "PLO1").2.1 rfl _ rfl (by decide)⟩

/-!
## The CSV serializer

`arrayToCSV` (lines 51-60): empty input returns the empty string;
otherwise the column set is `Object.keys(rows[0])`, every field is
escaped by `esc` (null and undefined become the empty unquoted string,
anything else is stringified, its double quotes doubled, and the result
wrapped in double quotes), and the output is the escaped header joined by
commas, a newline, and the per-row comma-joined lines joined by newlines.
A row is embedded as an ordered key-value list with possibly-null string
values (numeric fields such as the row number arrive pre-stringified);
a key missing from a later row reads as `undefined` and escapes to the
empty string exactly like null. -/

abbrev Row := List (String × Option String)

/-- The quote-doubling of `esc`: `String(s).replace(/"/g, '""')`, modelled
character-wise. -/
def csvEscChars : List Char → List Char
  | [] => []
  | c :: cs =>
    if c = '"' then '"' :: '"' :: csvEscChars cs else c :: csvEscChars cs

/-- `esc` (lines 55-56). -/
def csvEsc (v : Option String) : String :=
  match v with
  | none => ""
  | some s => "\"" ++ String.mk (csvEscChars s.data) ++ "\""

/-- `r[c]` on an embedded row: a missing key reads as `undefined`, which
`esc` treats exactly like null. -/
def rowField (r : Row) (c : String) : Option String :=
  (List.lookup c r).getD none

/-- `arrayToCSV` (lines 51-60). -/
def arrayToCSV (rows : List Row) : String :=
  match rows with
  | [] => ""
  | r0 :: _ =>
    let cols := r0.map Prod.fst
    let header := String.intercalate "," (cols.map (fun c => csvEsc (some c)))
    let csvLines := rows.map (fun r =>
      String.intercalate "," (cols.map (fun c => csvEsc (rowField r c))))
    header ++ "\n" ++ String.intercalate "\n" csvLines

/-- The canonical field decoder: strip the wrapping quotes and undouble
every doubled quote. -/
def csvUnescChars : List Char → List Char
  | [] => []
  | [c] => [c]
  | c1 :: c2 :: cs =>
    if c1 = '"' ∧ c2 = '"' then '"' :: csvUnescChars cs
    else c1 :: csvUnescChars (c2 :: cs)

def csvFieldDecode (f : String) : String :=
  String.mk (csvUnescChars ((f.data.drop 1).dropLast))

theorem csvUnescChars_quote_quote (t : List Char) :
    csvUnescChars ('"' :: '"' :: t) = '"' :: csvUnescChars t := by
  rw [csvUnescChars, if_pos ⟨rfl, rfl⟩]

theorem csvUnescChars_cons_ne (c : Char) (t : List Char) (hc : c ≠ '"') :
    csvUnescChars (c :: t) = c :: csvUnescChars t := by
  cases t with
  | nil => rfl
  | cons d ds => rw [csvUnescChars, if_neg (fun h => hc h.1)]

/-- Undoubling inverts doubling, character-wise. -/
theorem csvUnescChars_escChars (l : List Char) :
    csvUnescChars (csvEscChars l) = l := by
  induction l with
  | nil => rfl
  | cons c cs ih =>
    by_cases hc : c = '"'
    · subst hc
      rw [csvEscChars, if_pos rfl, csvUnescChars_quote_quote, ih]
    · rw [csvEscChars, if_neg hc, csvUnescChars_cons_ne c _ hc, ih]

/-- C10: the CSV serializer returns the empty string on no rows; otherwise
it emits the escaped first-row column names as the header followed by one
comma-joined line per row, newline-separated; every non-null field is
wrapped in double quotes with embedded double quotes doubled; and the
escaping is exactly invertible, so the original field string is recoverable
from the emitted CSV. -/
theorem c10_arrayToCSV :
    arrayToCSV [] = ""
    ∧ (∀ (r0 : Row) (rs : List Row), arrayToCSV (r0 :: rs)
        = String.intercalate ","
            ((r0.map Prod.fst).map (fun c => csvEsc (some c)))
          ++ "\n" ++ String.intercalate "\n" ((r0 :: rs).map (fun r =>
            String.intercalate ","
              ((r0.map Prod.fst).map (fun c => csvEsc (rowField r c))))))
    ∧ (∀ s : String, csvEsc (some s)
        = "\"" ++ String.mk (csvEscChars s.data) ++ "\"")
    ∧ (∀ s : String, csvFieldDecode (csvEsc (some s)) = s) := by
  refine ⟨rfl, fun r0 rs => rfl, fun s => rfl, ?_⟩
  intro s
  have hdata : (csvEsc (some s)).data = '"' :: csvEscChars s.data ++ ['"'] := by
    simp [csvEsc, String.data_append]
  rw [csvFieldDecode, hdata]
  simp [csvUnescChars_escChars]
